import Mathlib

/-!
Verification of the sqlite-vfs bridging layer (src/lib.rs).

The source registers a custom SQLite VFS: it decodes SQLite's open-flags
bitmask into structured `OpenOptions`, and implements the filesystem-level
(`vfs` module) and file-level (`io` module) dispatch entry points over an
application-supplied `Vfs`/`File` pair.

Embedding conventions:
- `c_int` flag/status values are modelled as `Nat` bit patterns; bit tests
  `flags & BIT > 0` become `flags &&& BIT > 0` (all tested bits are positive,
  so the i32 sign bit is irrelevant to every test performed by the source).
- `std::io::Error` is modelled as a kind plus its rendered message bytes.
- The shared error channel (`Rc<Cell<Option<std::io::Error>>>`) is threaded
  explicitly as `Option IOError` state into and out of each entry point.
- Calls into the application-supplied `Vfs`/`File` trait objects are
  parametrised by their result (`Except IOError _`), since those objects are
  outside this crate.
-/

/-! ## SQLite constants (values fixed by the libsqlite3-sys contract) -/

def SQLITE_OK : Nat := 0
def SQLITE_ERROR : Nat := 1
def SQLITE_DELETE : Nat := 9
def SQLITE_NOTFOUND : Nat := 12
def SQLITE_CANTOPEN : Nat := 14
def SQLITE_IOERR_READ : Nat := 266
def SQLITE_IOERR_SHORT_READ : Nat := 522
def SQLITE_IOERR_WRITE : Nat := 778
def SQLITE_IOERR_FSYNC : Nat := 1034
def SQLITE_IOERR_TRUNCATE : Nat := 1546
def SQLITE_IOERR_FSTAT : Nat := 1802
def SQLITE_IOERR_UNLOCK : Nat := 2058
def SQLITE_IOERR_ACCESS : Nat := 3338
def SQLITE_IOERR_CHECKRESERVEDLOCK : Nat := 3594
def SQLITE_IOERR_LOCK : Nat := 3850
def SQLITE_IOERR_CLOSE : Nat := 4106
def SQLITE_IOERR_SHMLOCK : Nat := 5130
def SQLITE_IOERR_SHMMAP : Nat := 5386
def SQLITE_IOCAP_ATOMIC : Nat := 1
def SQLITE_IOCAP_SAFE_APPEND : Nat := 512
def SQLITE_IOCAP_SEQUENTIAL : Nat := 1024
def SQLITE_IOCAP_POWERSAFE_OVERWRITE : Nat := 4096

def SQLITE_OPEN_READONLY : Nat := 1
def SQLITE_OPEN_READWRITE : Nat := 2
def SQLITE_OPEN_CREATE : Nat := 4
def SQLITE_OPEN_DELETEONCLOSE : Nat := 8
def SQLITE_OPEN_EXCLUSIVE : Nat := 16
def SQLITE_OPEN_MAIN_DB : Nat := 256
def SQLITE_OPEN_TEMP_DB : Nat := 512
def SQLITE_OPEN_TRANSIENT_DB : Nat := 1024
def SQLITE_OPEN_MAIN_JOURNAL : Nat := 2048
def SQLITE_OPEN_TEMP_JOURNAL : Nat := 4096
def SQLITE_OPEN_SUBJOURNAL : Nat := 8192
def SQLITE_OPEN_SUPER_JOURNAL : Nat := 16384
def SQLITE_OPEN_WAL : Nat := 524288

/-- `MAX_PATH_LENGTH` from src/lib.rs. -/
def MAX_PATH_LENGTH : Nat := 512

/-! ## Open-flags decoding (`OpenKind`, `OpenAccess`, `OpenOptions`) -/

/-- The object type that is being opened (`OpenKind` in src/lib.rs). -/
inductive OpenKind where
  | MainDb
  | MainJournal
  | TempDb
  | TempJournal
  | TransientDb
  | SubJournal
  | SuperJournal
  | Wal
  deriving DecidableEq, Repr

/-- The access an object is opened with (`OpenAccess` in src/lib.rs). -/
inductive OpenAccess where
  | Read
  | Write
  | Create
  | CreateNew
  deriving DecidableEq, Repr

/-- `OpenKind::from_flags` (src/lib.rs lines 967-981): the match with bit-test
guards, tried top to bottom. -/
def OpenKind.from_flags (flags : Nat) : Option OpenKind :=
  if flags &&& SQLITE_OPEN_MAIN_DB > 0 then some .MainDb
  else if flags &&& SQLITE_OPEN_MAIN_JOURNAL > 0 then some .MainJournal
  else if flags &&& SQLITE_OPEN_TEMP_DB > 0 then some .TempDb
  else if flags &&& SQLITE_OPEN_TEMP_JOURNAL > 0 then some .TempJournal
  else if flags &&& SQLITE_OPEN_TRANSIENT_DB > 0 then some .TransientDb
  else if flags &&& SQLITE_OPEN_SUBJOURNAL > 0 then some .SubJournal
  else if flags &&& SQLITE_OPEN_SUPER_JOURNAL > 0 then some .SuperJournal
  else if flags &&& SQLITE_OPEN_WAL > 0 then some .Wal
  else none

/-- `OpenAccess::from_flags` (src/lib.rs lines 983-998). -/
def OpenAccess.from_flags (flags : Nat) : Option OpenAccess :=
  if flags &&& SQLITE_OPEN_CREATE > 0 ∧ flags &&& SQLITE_OPEN_EXCLUSIVE > 0 then
    some .CreateNew
  else if flags &&& SQLITE_OPEN_CREATE > 0 then some .Create
  else if flags &&& SQLITE_OPEN_READWRITE > 0 then some .Write
  else if flags &&& SQLITE_OPEN_READONLY > 0 then some .Read
  else none

/-- `OpenOptions` (src/lib.rs lines 86-96). -/
structure OpenOptions where
  kind : OpenKind
  access : OpenAccess
  delete_on_close : Bool
  deriving DecidableEq, Repr

/-- `OpenOptions::from_flags` (src/lib.rs lines 957-965): both sub-decodes
must succeed; `delete_on_close` is the independent bit. -/
def OpenOptions.from_flags (flags : Nat) : Option OpenOptions :=
  match OpenKind.from_flags flags, OpenAccess.from_flags flags with
  | some kind, some access =>
      some ⟨kind, access, decide (flags &&& SQLITE_OPEN_DELETEONCLOSE > 0)⟩
  | _, _ => none

/-- The documented priority order of `ObjectKind` bits, as listed in the spec:
MainDb, MainJournal, TempDb, TempJournal, TransientDb, SubJournal,
SuperJournal, Wal. -/
def kindBitsInOrder : List (Nat × OpenKind) :=
  [(SQLITE_OPEN_MAIN_DB, .MainDb),
   (SQLITE_OPEN_MAIN_JOURNAL, .MainJournal),
   (SQLITE_OPEN_TEMP_DB, .TempDb),
   (SQLITE_OPEN_TEMP_JOURNAL, .TempJournal),
   (SQLITE_OPEN_TRANSIENT_DB, .TransientDb),
   (SQLITE_OPEN_SUBJOURNAL, .SubJournal),
   (SQLITE_OPEN_SUPER_JOURNAL, .SuperJournal),
   (SQLITE_OPEN_WAL, .Wal)]

/-- The spec's wording of kind decoding: scan the priority list and return the
first kind whose bit is set. Stated from the spec, to be compared with
`OpenKind.from_flags` (which is translated from the source). -/
def OpenKind.fromFlagsSpec (flags : Nat) : Option OpenKind :=
  (kindBitsInOrder.find? fun p => decide (flags &&& p.1 > 0)).map Prod.snd

/-! ## Error model

`std::io::Error` is modelled as its kind plus the bytes of its rendered
message (`err.to_string()`); the source only ever inspects the kind and the
rendered text. -/

/-- The `std::io::ErrorKind` values the source distinguishes; every other
kind behaves like `other`. -/
inductive ErrorKind where
  | notFound
  | unexpectedEof
  | permissionDenied
  | other
  deriving DecidableEq, Repr

/-- A `std::io::Error`: its kind and the bytes of its rendered message. -/
structure IOError where
  kind : ErrorKind
  msg : List Nat
  deriving DecidableEq, Repr

/-- Byte list of an ASCII string literal (all messages in the source are
ASCII). -/
def strBytes (s : String) : List Nat := s.data.map Char.toNat

/-- `null_ptr_error()` (src/lib.rs lines 907-909). -/
def null_ptr_error : IOError := ⟨.other, strBytes "received null pointer"⟩

/-- The error deposited by `vfs::open` when the flags do not decode
(src/lib.rs lines 241-244). -/
def invalid_open_flags_error : IOError := ⟨.other, strBytes "invalid open flags"⟩

/-- `CString::new(..).to_bytes_with_nul()`: fails on an interior nul byte,
otherwise appends the terminator. -/
def cstringBytesWithNul (bytes : List Nat) : Option (List Nat) :=
  if 0 ∈ bytes then none else some (bytes ++ [0])

/-- Overwrite the front of a caller buffer with `src`
(`slice::from_raw_parts_mut(dst, src.len()).copy_from_slice(src)`). -/
def writeBytes (dst src : List Nat) : List Nat := src ++ dst.drop src.length

/-! ## FileHandle state

`FileState<F>` (src/lib.rs lines 200-206): the fixed-size block SQLite
allocates per open file. Raw pointers become `Option`/`Bool` fields:
`methodsSet` models `base.pMethods` being installed, `name` the owned
`CString` path, `file` the owned boxed `F`, and `lastErrorSet` whether the
`Rc` reference to the shared error channel is stored. The channel's contents
are threaded separately as `Option IOError`. -/

structure FileState (F : Type) where
  methodsSet : Bool
  name : Option (List Nat)
  file : Option F
  lastErrorSet : Bool
  deriving DecidableEq, Repr

/-! ## Filesystem-level dispatch (`mod vfs`)

Each entry point takes `stateOk` (whether `vfs_state` resolves, i.e. the
`sqlite3_vfs` and its `pAppData` pointers are non-null), the current error
channel, and the results of any call into the application provider, and
returns the status code plus the updated channel (and outputs). -/

/-- `vfs::open` (src/lib.rs lines 214-265). `pathBytes` is the decoded
`z_name` string, `openRes` the result of `state.vfs.open(path, opts)`
(consulted only when the flags decode), `pFile` the output block. -/
def vfsOpen {F : Type} (stateOk : Bool) (chan : Option IOError) (flags : Nat)
    (pathBytes : List Nat) (openRes : Except IOError F)
    (pFile : Option (FileState F)) :
    Nat × Option IOError × Option (FileState F) :=
  if stateOk then
    match OpenOptions.from_flags flags with
    | none => (SQLITE_CANTOPEN, some invalid_open_flags_error, pFile)
    | some _ =>
      match openRes with
      | .error err => (SQLITE_CANTOPEN, some err, pFile)
      | .ok f =>
        match pFile with
        | none => (SQLITE_CANTOPEN, some null_ptr_error, pFile)
        | some block =>
          (SQLITE_OK, none,
            some { block with
                     methodsSet := true
                     name := some pathBytes
                     file := some f
                     lastErrorSet := true })
  else (SQLITE_ERROR, chan, pFile)

/-- `vfs::delete` (src/lib.rs lines 269-302). `deleteRes` is the result of
`state.vfs.delete(path)`. -/
def vfsDelete (stateOk : Bool) (chan : Option IOError)
    (deleteRes : Except IOError Unit) : Nat × Option IOError :=
  if stateOk then
    match deleteRes with
    | .ok _ => (SQLITE_OK, none)
    | .error err =>
      if err.kind = .notFound then (SQLITE_OK, none)
      else (SQLITE_DELETE, some err)
  else (SQLITE_DELETE, chan)

/-- `vfs::full_pathname` (src/lib.rs lines 351-374). `pathBytes` is the
`CStr` content of `z_path` (no interior nul), `zOut` the caller buffer. -/
def vfsFullPathname (stateOk : Bool) (chan : Option IOError)
    (pathBytes : List Nat) (nOut : Nat) (zOut : List Nat) :
    Nat × Option IOError × List Nat :=
  if stateOk then
    let name := pathBytes ++ [0]
    if name.length > nOut ∨ name.length > MAX_PATH_LENGTH then
      (SQLITE_ERROR, none, zOut)
    else (SQLITE_OK, none, writeBytes zOut name)
  else (SQLITE_ERROR, chan, zOut)

/-- `vfs::get_last_error` (src/lib.rs lines 457-480). The first action on the
channel is `state.last_error.take()`, so the channel comes back empty from
every branch past the `vfs_state` check. -/
def vfsGetLastError (stateOk : Bool) (chan : Option IOError)
    (nByte : Nat) (zErrMsg : List Nat) :
    Nat × Option IOError × List Nat :=
  if stateOk then
    match chan with
    | some err =>
      match cstringBytesWithNul err.msg with
      | none => (SQLITE_ERROR, none, zErrMsg)
      | some msg =>
        if msg.length > nByte then (SQLITE_ERROR, none, zErrMsg)
        else (SQLITE_OK, none, writeBytes zErrMsg msg)
    | none => (SQLITE_OK, none, zErrMsg)
  else (SQLITE_ERROR, chan, zErrMsg)

/-! ## File-level dispatch (`mod io`)

Each entry point takes the handle block (`none` models a null `p_file`
pointer, on which `file_state` fails) and the error channel;
`file_state(p_file, true)` clears the channel through the handle's stored
channel reference. Results of calls on the application `File` object are
parameters. Every entry point returns the (unchanged or cleared) handle
block so that frame properties can be stated. -/

/-- `io::close` (src/lib.rs lines 501-521): releases the path string, the
boxed `File` and the channel reference, and nulls all three fields. -/
def ioClose {F : Type} (pFile : Option (FileState F)) (chan : Option IOError) :
    Nat × Option (FileState F) × Option IOError :=
  match pFile with
  | none => (SQLITE_IOERR_CLOSE, pFile, chan)
  | some st =>
    (SQLITE_OK,
      some { st with name := none, file := none, lastErrorSet := false },
      none)

/-- `io::read` (src/lib.rs lines 524-566). `seekRes` is the result of
`file.seek(SeekFrom::Start(i_ofst))`, `readRes` of `file.read_exact(out)`. -/
def ioRead {F : Type} (pFile : Option (FileState F)) (chan : Option IOError)
    (iOfst : Nat) (seekRes : Except IOError Nat)
    (readRes : Except IOError Unit) :
    Nat × Option (FileState F) × Option IOError :=
  match pFile with
  | none => (SQLITE_IOERR_CLOSE, pFile, chan)
  | some st =>
    match st.file with
    | none => (SQLITE_IOERR_CLOSE, pFile, none)
    | some _ =>
      match seekRes with
      | .ok o =>
        if o ≠ iOfst then (SQLITE_IOERR_READ, pFile, none)
        else
          match readRes with
          | .ok _ => (SQLITE_OK, pFile, none)
          | .error err =>
            if err.kind = .unexpectedEof then
              (SQLITE_IOERR_SHORT_READ, pFile, none)
            else (SQLITE_IOERR_READ, pFile, some err)
      | .error err => (SQLITE_IOERR_READ, pFile, some err)

/-- `io::write` (src/lib.rs lines 569-609). -/
def ioWrite {F : Type} (pFile : Option (FileState F)) (chan : Option IOError)
    (iOfst : Nat) (seekRes : Except IOError Nat)
    (writeRes : Except IOError Unit) :
    Nat × Option (FileState F) × Option IOError :=
  match pFile with
  | none => (SQLITE_IOERR_WRITE, pFile, chan)
  | some st =>
    match st.file with
    | none => (SQLITE_IOERR_WRITE, pFile, some null_ptr_error)
    | some _ =>
      match seekRes with
      | .ok o =>
        if o ≠ iOfst then (SQLITE_IOERR_WRITE, pFile, none)
        else
          match writeRes with
          | .ok _ => (SQLITE_OK, pFile, none)
          | .error err => (SQLITE_IOERR_WRITE, pFile, some err)
      | .error err => (SQLITE_IOERR_WRITE, pFile, some err)

/-- `io::truncate` (src/lib.rs lines 612-640); note the source reports
`SQLITE_IOERR_FSYNC` for handle-resolution failures here. -/
def ioTruncate {F : Type} (pFile : Option (FileState F))
    (chan : Option IOError) (truncRes : Except IOError Unit) :
    Nat × Option (FileState F) × Option IOError :=
  match pFile with
  | none => (SQLITE_IOERR_FSYNC, pFile, chan)
  | some st =>
    match st.file with
    | none => (SQLITE_IOERR_FSYNC, pFile, some null_ptr_error)
    | some _ =>
      match truncRes with
      | .ok _ => (SQLITE_OK, pFile, none)
      | .error err => (SQLITE_IOERR_TRUNCATE, pFile, some err)

/-- `io::sync` (src/lib.rs lines 643-665). -/
def ioSync {F : Type} (pFile : Option (FileState F)) (chan : Option IOError)
    (flushRes : Except IOError Unit) :
    Nat × Option (FileState F) × Option IOError :=
  match pFile with
  | none => (SQLITE_IOERR_FSYNC, pFile, chan)
  | some st =>
    match st.file with
    | none => (SQLITE_IOERR_FSYNC, pFile, some null_ptr_error)
    | some _ =>
      match flushRes with
      | .ok _ => (SQLITE_OK, pFile, none)
      | .error err => (SQLITE_IOERR_FSYNC, pFile, some err)

/-- `io::file_size` (src/lib.rs lines 668-700). `pSizeValid` models the
output slot pointer being non-null; the last component is the value written
to it. -/
def ioFileSize {F : Type} (pFile : Option (FileState F))
    (chan : Option IOError) (sizeRes : Except IOError Nat)
    (pSizeValid : Bool) :
    Nat × Option (FileState F) × Option IOError × Option Nat :=
  match pFile with
  | none => (SQLITE_IOERR_FSTAT, pFile, chan, none)
  | some st =>
    match st.file with
    | none => (SQLITE_IOERR_FSTAT, pFile, some null_ptr_error, none)
    | some _ =>
      match sizeRes with
      | .ok n =>
        if pSizeValid then (SQLITE_OK, pFile, none, some n)
        else (SQLITE_IOERR_FSTAT, pFile, some null_ptr_error, none)
      | .error err => (SQLITE_IOERR_FSTAT, pFile, some err, none)

/-- `io::lock` (src/lib.rs lines 703-713): unconditional success on a
resolvable handle. -/
def ioLock {F : Type} (pFile : Option (FileState F)) (chan : Option IOError) :
    Nat × Option (FileState F) × Option IOError :=
  match pFile with
  | none => (SQLITE_IOERR_LOCK, pFile, chan)
  | some _ => (SQLITE_OK, pFile, none)

/-- `io::unlock` (src/lib.rs lines 716-726). -/
def ioUnlock {F : Type} (pFile : Option (FileState F))
    (chan : Option IOError) :
    Nat × Option (FileState F) × Option IOError :=
  match pFile with
  | none => (SQLITE_IOERR_UNLOCK, pFile, chan)
  | some _ => (SQLITE_OK, pFile, none)

/-- `io::check_reserved_lock` (src/lib.rs lines 729-752): writes 0 ("not
reserved") into the output slot. -/
def ioCheckReservedLock {F : Type} (pFile : Option (FileState F))
    (chan : Option IOError) (pResValid : Bool) :
    Nat × Option (FileState F) × Option IOError × Option Nat :=
  match pFile with
  | none => (SQLITE_IOERR_CHECKRESERVEDLOCK, pFile, chan, none)
  | some _ =>
    if pResValid then (SQLITE_OK, pFile, none, some 0)
    else (SQLITE_IOERR_CHECKRESERVEDLOCK, pFile, some null_ptr_error, none)

/-- `io::file_control` (src/lib.rs lines 755-768). -/
def ioFileControl {F : Type} (pFile : Option (FileState F))
    (chan : Option IOError) :
    Nat × Option (FileState F) × Option IOError :=
  match pFile with
  | none => (SQLITE_ERROR, pFile, chan)
  | some _ => (SQLITE_NOTFOUND, pFile, none)

/-- `io::sector_size` (src/lib.rs lines 771-780): the returned value is the
sector size (or `SQLITE_ERROR` on an unresolvable handle). -/
def ioSectorSize {F : Type} (pFile : Option (FileState F))
    (chan : Option IOError) :
    Nat × Option (FileState F) × Option IOError :=
  match pFile with
  | none => (SQLITE_ERROR, pFile, chan)
  | some _ => (1024, pFile, none)

/-- `io::device_characteristics` (src/lib.rs lines 783-805). -/
def ioDeviceCharacteristics {F : Type} (pFile : Option (FileState F))
    (chan : Option IOError) :
    Nat × Option (FileState F) × Option IOError :=
  match pFile with
  | none => (SQLITE_ERROR, pFile, chan)
  | some _ =>
    (SQLITE_IOCAP_ATOMIC ||| SQLITE_IOCAP_POWERSAFE_OVERWRITE |||
        SQLITE_IOCAP_SAFE_APPEND ||| SQLITE_IOCAP_SEQUENTIAL,
      pFile, none)

/-- `io::shm_map` (src/lib.rs lines 808-823): returns `SQLITE_IOERR_SHMMAP`
on every resolvable handle, for all arguments. -/
def ioShmMap {F : Type} (pFile : Option (FileState F))
    (chan : Option IOError) :
    Nat × Option (FileState F) × Option IOError :=
  match pFile with
  | none => (SQLITE_IOERR_SHMMAP, pFile, chan)
  | some _ => (SQLITE_IOERR_SHMMAP, pFile, none)

/-- `io::shm_lock` (src/lib.rs lines 826-840): returns `SQLITE_IOERR_SHMLOCK`
on every resolvable handle. -/
def ioShmLock {F : Type} (pFile : Option (FileState F))
    (chan : Option IOError) :
    Nat × Option (FileState F) × Option IOError :=
  match pFile with
  | none => (SQLITE_IOERR_SHMMAP, pFile, chan)
  | some _ => (SQLITE_IOERR_SHMLOCK, pFile, none)

/-- `io::shm_barrier` (src/lib.rs lines 843-845): touches nothing and
returns nothing — not even the handle or the channel. -/
def ioShmBarrier {F : Type} (pFile : Option (FileState F))
    (chan : Option IOError) :
    Option (FileState F) × Option IOError :=
  (pFile, chan)

/-- `io::shm_unmap` (src/lib.rs lines 848-857): returns `SQLITE_OK` on every
resolvable handle. -/
def ioShmUnmap {F : Type} (pFile : Option (FileState F))
    (chan : Option IOError) :
    Nat × Option (FileState F) × Option IOError :=
  match pFile with
  | none => (SQLITE_IOERR_SHMMAP, pFile, chan)
  | some _ => (SQLITE_OK, pFile, none)

/-- `io::mem_fetch` (src/lib.rs lines 860-874): returns `SQLITE_ERROR` on
every resolvable handle. -/
def ioMemFetch {F : Type} (pFile : Option (FileState F))
    (chan : Option IOError) :
    Nat × Option (FileState F) × Option IOError :=
  match pFile with
  | none => (SQLITE_ERROR, pFile, chan)
  | some _ => (SQLITE_ERROR, pFile, none)

/-- `io::mem_unfetch` (src/lib.rs lines 877-890): returns `SQLITE_OK` on
every resolvable handle. -/
def ioMemUnfetch {F : Type} (pFile : Option (FileState F))
    (chan : Option IOError) :
    Nat × Option (FileState F) × Option IOError :=
  match pFile with
  | none => (SQLITE_ERROR, pFile, chan)
  | some _ => (SQLITE_OK, pFile, none)

/-- C1: decoding `ObjectKind` tests the kind bits in the fixed documented
order and returns the first match; a flags value with both the MainDb and the
MainJournal bits set decodes to MainDb; decoding fails exactly when none of
the eight kind bits is set. -/
theorem openKind_fromFlags_priority (flags : Nat) :
    OpenKind.from_flags flags = OpenKind.fromFlagsSpec flags ∧
    (OpenKind.from_flags flags = none ↔
      flags &&& SQLITE_OPEN_MAIN_DB = 0 ∧
      flags &&& SQLITE_OPEN_MAIN_JOURNAL = 0 ∧
      flags &&& SQLITE_OPEN_TEMP_DB = 0 ∧
      flags &&& SQLITE_OPEN_TEMP_JOURNAL = 0 ∧
      flags &&& SQLITE_OPEN_TRANSIENT_DB = 0 ∧
      flags &&& SQLITE_OPEN_SUBJOURNAL = 0 ∧
      flags &&& SQLITE_OPEN_SUPER_JOURNAL = 0 ∧
      flags &&& SQLITE_OPEN_WAL = 0) ∧
    (flags &&& SQLITE_OPEN_MAIN_DB > 0 ∧ flags &&& SQLITE_OPEN_MAIN_JOURNAL > 0 →
      OpenKind.from_flags flags = some OpenKind.MainDb) := by
  refine ⟨?_, ?_, ?_⟩
  · unfold OpenKind.from_flags OpenKind.fromFlagsSpec kindBitsInOrder
    split_ifs <;> simp_all [List.find?]
  · unfold OpenKind.from_flags
    split_ifs <;> simp_all <;> omega
  · intro h
    unfold OpenKind.from_flags
    simp [h.1]

/-- Witness for C1 at a concrete input: flags with both the MainDb bit (256)
and the MainJournal bit (2048) set decode to MainDb. -/
theorem openKind_fromFlags_priority_witness :
    OpenKind.from_flags 2304 = some OpenKind.MainDb :=
  (openKind_fromFlags_priority 2304).2.2 (by decide)

/-- C2: decoding `AccessMode`: create together with exclusive yields
CreateNew; otherwise create yields Create; otherwise read-write yields Write;
otherwise read-only yields Read; and decoding fails exactly when none of
these cases applies. -/
theorem openAccess_fromFlags_cases (flags : Nat) :
    (flags &&& SQLITE_OPEN_CREATE > 0 ∧ flags &&& SQLITE_OPEN_EXCLUSIVE > 0 →
      OpenAccess.from_flags flags = some OpenAccess.CreateNew) ∧
    (flags &&& SQLITE_OPEN_CREATE > 0 ∧ flags &&& SQLITE_OPEN_EXCLUSIVE = 0 →
      OpenAccess.from_flags flags = some OpenAccess.Create) ∧
    (flags &&& SQLITE_OPEN_CREATE = 0 ∧ flags &&& SQLITE_OPEN_READWRITE > 0 →
      OpenAccess.from_flags flags = some OpenAccess.Write) ∧
    (flags &&& SQLITE_OPEN_CREATE = 0 ∧ flags &&& SQLITE_OPEN_READWRITE = 0 ∧
        flags &&& SQLITE_OPEN_READONLY > 0 →
      OpenAccess.from_flags flags = some OpenAccess.Read) ∧
    (OpenAccess.from_flags flags = none ↔
      flags &&& SQLITE_OPEN_CREATE = 0 ∧ flags &&& SQLITE_OPEN_READWRITE = 0 ∧
        flags &&& SQLITE_OPEN_READONLY = 0) := by
  unfold OpenAccess.from_flags
  repeat' split
  all_goals simp_all
  all_goals omega

/-- Witness for C2 at concrete inputs: create+exclusive (20) decodes to
CreateNew, create alone (4) to Create, read-write (2) to Write, read-only (1)
to Read. -/
theorem openAccess_fromFlags_cases_witness :
    OpenAccess.from_flags 20 = some OpenAccess.CreateNew ∧
    OpenAccess.from_flags 4 = some OpenAccess.Create ∧
    OpenAccess.from_flags 2 = some OpenAccess.Write ∧
    OpenAccess.from_flags 1 = some OpenAccess.Read :=
  ⟨(openAccess_fromFlags_cases 20).1 (by decide),
   ((openAccess_fromFlags_cases 4).2).1 (by decide),
   (((openAccess_fromFlags_cases 2).2).2).1 (by decide),
   ((((openAccess_fromFlags_cases 1).2).2).2).1 (by decide)⟩

/-- C3: a read on a valid (non-null, open) handle whose positioned read
reaches end-of-data before filling the requested count returns the
short-read status — distinct from the generic read-error status — and leaves
the Error Channel empty. -/
theorem ioRead_short_read {F : Type} (st : FileState F) (chan : Option IOError)
    (iOfst : Nat) (err : IOError)
    (hfile : st.file.isSome) (heof : err.kind = ErrorKind.unexpectedEof) :
    ioRead (some st) chan iOfst (Except.ok iOfst) (Except.error err) =
      (SQLITE_IOERR_SHORT_READ, some st, none) ∧
    SQLITE_IOERR_SHORT_READ ≠ SQLITE_IOERR_READ := by
  obtain ⟨f, hf⟩ := Option.isSome_iff_exists.mp hfile
  exact ⟨by simp [ioRead, hf, heof], by decide⟩

/-- Witness for C3: a concrete end-of-data read returns the short-read
status and an empty channel. -/
theorem ioRead_short_read_witness :
    ioRead (F := Unit) (some ⟨true, some [65], some (), true⟩)
        (some ⟨ErrorKind.other, [66]⟩) 7 (Except.ok 7)
        (Except.error ⟨ErrorKind.unexpectedEof, []⟩) =
      (SQLITE_IOERR_SHORT_READ, some ⟨true, some [65], some (), true⟩, none) :=
  (ioRead_short_read ⟨true, some [65], some (), true⟩
    (some ⟨ErrorKind.other, [66]⟩) 7 ⟨ErrorKind.unexpectedEof, []⟩
    (by decide) rfl).1

/-- C4: a provider delete failing with a not-found error is reported as
success with nothing deposited (so repeated deletes of an absent path all
return success, since the provider can only answer ok or not-found for them);
a provider success is success; any other provider failure is deposited in the
channel and reported with the delete-failed status. -/
theorem vfsDelete_idempotent (chan : Option IOError) (err : IOError) :
    (err.kind = ErrorKind.notFound →
      vfsDelete true chan (Except.error err) = (SQLITE_OK, none)) ∧
    vfsDelete true chan (Except.ok ()) = (SQLITE_OK, none) ∧
    (err.kind ≠ ErrorKind.notFound →
      vfsDelete true chan (Except.error err) = (SQLITE_DELETE, some err)) := by
  refine ⟨fun h => ?_, by simp [vfsDelete], fun h => ?_⟩ <;>
    simp [vfsDelete, h]

/-- Witness for C4: deleting with a concrete not-found provider error
returns success twice in a row; a concrete permission error is deposited. -/
theorem vfsDelete_idempotent_witness :
    vfsDelete true none (Except.error ⟨ErrorKind.notFound, [65]⟩) =
      (SQLITE_OK, none) ∧
    vfsDelete true (vfsDelete true none
        (Except.error ⟨ErrorKind.notFound, [65]⟩)).2
        (Except.error ⟨ErrorKind.notFound, [65]⟩) = (SQLITE_OK, none) ∧
    vfsDelete true none (Except.error ⟨ErrorKind.permissionDenied, [66]⟩) =
      (SQLITE_DELETE, some ⟨ErrorKind.permissionDenied, [66]⟩) := by
  refine ⟨(vfsDelete_idempotent none ⟨ErrorKind.notFound, [65]⟩).1 rfl, ?_, ?_⟩
  · have h := (vfsDelete_idempotent none ⟨ErrorKind.notFound, [65]⟩).1 rfl
    rw [h]
    exact (vfsDelete_idempotent none ⟨ErrorKind.notFound, [65]⟩).1 rfl
  · exact (vfsDelete_idempotent none
      ⟨ErrorKind.permissionDenied, [66]⟩).2.2 (by decide)

/-- Counterexample for C5: with a pending three-byte message and a
two-byte caller buffer, get_last_error fails (status SQLITE_ERROR, nothing
written) — yet the Error Channel comes back empty, so the channel is NOT
"cleared only as a side effect of a successful read": the unconditional
take() at the start of the call clears it on the failure path as well. -/
theorem vfsGetLastError_clears_on_overflow :
    vfsGetLastError true (some ⟨ErrorKind.other, [65, 66, 67]⟩) 2 [9, 9] =
      (SQLITE_ERROR, none, [9, 9]) ∧
    (none : Option IOError) ≠ some ⟨ErrorKind.other, [65, 66, 67]⟩ := by
  decide

/-- C5 (amended): get_last_error on a pending failure whose rendered message
(with terminator) fits the buffer copies it there, returns success and
clears the channel, so the message is retrievable exactly once — a second
immediate call finds the channel empty and leaves the buffer alone; when the
message (with terminator) exceeds the buffer the call fails and writes
nothing, but the channel is still cleared (the take() happens before the
capacity check). -/
theorem vfsGetLastError_read_and_clear (err : IOError) (nByte : Nat)
    (buf : List Nat) (hnul : 0 ∉ err.msg) :
    (err.msg.length + 1 ≤ nByte →
      vfsGetLastError true (some err) nByte buf =
        (SQLITE_OK, none, writeBytes buf (err.msg ++ [0])) ∧
      vfsGetLastError true none nByte (writeBytes buf (err.msg ++ [0])) =
        (SQLITE_OK, none, writeBytes buf (err.msg ++ [0]))) ∧
    (err.msg.length + 1 > nByte →
      vfsGetLastError true (some err) nByte buf =
        (SQLITE_ERROR, none, buf)) := by
  constructor
  · intro h
    constructor
    · simp only [vfsGetLastError, cstringBytesWithNul, if_pos, if_true]
      rw [if_neg hnul]
      simp only [List.length_append, List.length_cons, List.length_nil]
      rw [if_neg (by omega)]
    · rfl
  · intro h
    simp only [vfsGetLastError, cstringBytesWithNul, if_true]
    rw [if_neg hnul]
    simp only [List.length_append, List.length_cons, List.length_nil]
    rw [if_pos (by omega)]

/-- Witness for C5: a concrete one-byte message in a two-byte buffer is
returned once (with terminator) and the second call finds nothing; the same
message in a one-byte buffer fails. -/
theorem vfsGetLastError_read_and_clear_witness :
    vfsGetLastError true (some ⟨ErrorKind.other, [65]⟩) 2 [9, 9, 9] =
      (SQLITE_OK, none, [65, 0, 9]) ∧
    vfsGetLastError true none 2 [65, 0, 9] = (SQLITE_OK, none, [65, 0, 9]) ∧
    vfsGetLastError true (some ⟨ErrorKind.other, [65]⟩) 1 [9, 9, 9] =
      (SQLITE_ERROR, none, [9, 9, 9]) := by
  have h := vfsGetLastError_read_and_clear ⟨ErrorKind.other, [65]⟩ 2 [9, 9, 9]
    (by decide)
  have h1 := vfsGetLastError_read_and_clear ⟨ErrorKind.other, [65]⟩ 1 [9, 9, 9]
    (by decide)
  exact ⟨(h.1 (by decide)).1, (h.1 (by decide)).2, h1.2 (by decide)⟩

/-- C6: full_pathname copies the path bytes with terminator verbatim into
the output buffer and succeeds when the length including terminator is at
most both the stated capacity and MAX_PATH_LENGTH (512); when it exceeds
either bound it returns SQLITE_ERROR and writes nothing into the buffer. -/
theorem vfsFullPathname_copies_or_fails (chan : Option IOError)
    (path buf : List Nat) (nOut : Nat) :
    (path.length + 1 ≤ nOut ∧ path.length + 1 ≤ MAX_PATH_LENGTH →
      vfsFullPathname true chan path nOut buf =
        (SQLITE_OK, none, writeBytes buf (path ++ [0]))) ∧
    (path.length + 1 > nOut ∨ path.length + 1 > MAX_PATH_LENGTH →
      vfsFullPathname true chan path nOut buf = (SQLITE_ERROR, none, buf)) := by
  constructor
  · intro h
    simp only [vfsFullPathname, if_true]
    rw [if_neg (by simp; omega)]
  · intro h
    simp only [vfsFullPathname, if_true]
    rw [if_pos (by simp; omega)]

/-- Witness for C6: a concrete two-byte path fits a four-byte buffer and is
copied with its terminator; it does not fit a two-byte capacity and the
buffer is untouched. -/
theorem vfsFullPathname_copies_or_fails_witness :
    vfsFullPathname true none [65, 66] 4 [9, 9, 9, 9] =
      (SQLITE_OK, none, [65, 66, 0, 9]) ∧
    vfsFullPathname true none [65, 66] 2 [9, 9, 9, 9] =
      (SQLITE_ERROR, none, [9, 9, 9, 9]) :=
  ⟨by
    have h := (vfsFullPathname_copies_or_fails none [65, 66] [9, 9, 9, 9] 4).1
      (by decide)
    simpa [writeBytes] using h,
   (vfsFullPathname_copies_or_fails none [65, 66] [9, 9, 9, 9] 2).2
    (by decide)⟩

/-- Counterexample for C7: on a valid handle, shm_unmap and mem_unfetch do
NOT return an error status — both return SQLITE_OK (0), the success
status. -/
theorem ioShmUnmap_memUnfetch_return_ok :
    (ioShmUnmap (F := Unit) (some ⟨true, some [65], some (), true⟩) none).1 =
      SQLITE_OK ∧
    (ioMemUnfetch (F := Unit) (some ⟨true, some [65], some (), true⟩) none).1 =
      SQLITE_OK ∧
    SQLITE_OK = 0 := by
  decide

/-- C7 (amended): on every valid handle and for all arguments, shm_map
returns the shm-map error status, shm_lock the shm-lock error status and
mem_fetch the generic error status; shm_unmap and mem_unfetch return the
success status; shm_barrier performs no action at all (it does not even
clear the channel). -/
theorem shm_mem_stub_statuses {F : Type} (st : FileState F)
    (chan : Option IOError) :
    ioShmMap (some st) chan = (SQLITE_IOERR_SHMMAP, some st, none) ∧
    ioShmLock (some st) chan = (SQLITE_IOERR_SHMLOCK, some st, none) ∧
    ioMemFetch (some st) chan = (SQLITE_ERROR, some st, none) ∧
    ioShmUnmap (some st) chan = (SQLITE_OK, some st, none) ∧
    ioMemUnfetch (some st) chan = (SQLITE_OK, some st, none) ∧
    ioShmBarrier (some st) chan = (some st, chan) :=
  ⟨rfl, rfl, rfl, rfl, rfl, rfl⟩

/-- C8: handle-field lifecycle. A successful open installs the dispatch
table, the path string, the File instance and the channel reference all
together; close nulls the name, File and channel fields together; and every
other file-level operation returns the handle block with its fields exactly
as it found them — so the name and File fields are always both null or both
populated on every block produced by these operations. -/
theorem fileHandle_fields_lifecycle {F : Type} :
    (∀ (chan : Option IOError) (flags : Nat) (path : List Nat) (f : F)
        (block : FileState F) (opts : OpenOptions),
      OpenOptions.from_flags flags = some opts →
      vfsOpen true chan flags path (Except.ok f) (some block) =
        (SQLITE_OK, none,
          some { block with
                   methodsSet := true
                   name := some path
                   file := some f
                   lastErrorSet := true })) ∧
    (∀ (st : FileState F) (chan : Option IOError),
      ioClose (some st) chan =
        (SQLITE_OK,
          some { st with name := none, file := none, lastErrorSet := false },
          none)) ∧
    (∀ (pFile : Option (FileState F)) (chan : Option IOError) (iOfst : Nat)
        (seekRes : Except IOError Nat) (opRes : Except IOError Unit),
      (ioRead pFile chan iOfst seekRes opRes).2.1 = pFile ∧
      (ioWrite pFile chan iOfst seekRes opRes).2.1 = pFile) ∧
    (∀ (pFile : Option (FileState F)) (chan : Option IOError)
        (opRes : Except IOError Unit) (sizeRes : Except IOError Nat)
        (b : Bool),
      (ioTruncate pFile chan opRes).2.1 = pFile ∧
      (ioSync pFile chan opRes).2.1 = pFile ∧
      (ioFileSize pFile chan sizeRes b).2.1 = pFile ∧
      (ioLock pFile chan).2.1 = pFile ∧
      (ioUnlock pFile chan).2.1 = pFile ∧
      (ioCheckReservedLock pFile chan b).2.1 = pFile ∧
      (ioFileControl pFile chan).2.1 = pFile ∧
      (ioSectorSize pFile chan).2.1 = pFile ∧
      (ioDeviceCharacteristics pFile chan).2.1 = pFile ∧
      (ioShmMap pFile chan).2.1 = pFile ∧
      (ioShmLock pFile chan).2.1 = pFile ∧
      (ioShmBarrier pFile chan).1 = pFile ∧
      (ioShmUnmap pFile chan).2.1 = pFile ∧
      (ioMemFetch pFile chan).2.1 = pFile ∧
      (ioMemUnfetch pFile chan).2.1 = pFile) := by
  refine ⟨fun chan flags path f block opts h => ?_, fun st chan => rfl,
    fun pFile chan iOfst seekRes opRes => ⟨?_, ?_⟩,
    fun pFile chan opRes sizeRes b =>
      ⟨?_, ?_, ?_, ?_, ?_, ?_, ?_, ?_, ?_, ?_, ?_, ?_, ?_, ?_, ?_⟩⟩
  · simp [vfsOpen, h]
  · unfold ioRead
    repeat' split
    all_goals rfl
  · unfold ioWrite
    repeat' split
    all_goals rfl
  · unfold ioTruncate
    repeat' split
    all_goals rfl
  · unfold ioSync
    repeat' split
    all_goals rfl
  · unfold ioFileSize
    repeat' split
    all_goals rfl
  · cases pFile <;> rfl
  · cases pFile <;> rfl
  · unfold ioCheckReservedLock
    repeat' split
    all_goals rfl
  · cases pFile <;> rfl
  · cases pFile <;> rfl
  · cases pFile <;> rfl
  · cases pFile <;> rfl
  · cases pFile <;> rfl
  · rfl
  · cases pFile <;> rfl
  · cases pFile <;> rfl
  · cases pFile <;> rfl

/-- Witness for C8: a concrete open (MainDb, read-write flags 258) populates
the name and File fields together, and the subsequent close nulls them
together. -/
theorem fileHandle_fields_lifecycle_witness :
    vfsOpen (F := Unit) true none 258 [65] (Except.ok ())
        (some ⟨false, none, none, false⟩) =
      (SQLITE_OK, none, some ⟨true, some [65], some (), true⟩) ∧
    ioClose (F := Unit) (some ⟨true, some [65], some (), true⟩) none =
      (SQLITE_OK, some ⟨true, none, none, false⟩, none) :=
  ⟨fileHandle_fields_lifecycle.1 none 258 [65] () ⟨false, none, none, false⟩
    ⟨OpenKind.MainDb, OpenAccess.Write, false⟩ (by decide),
   fileHandle_fields_lifecycle.2.1 ⟨true, some [65], some (), true⟩ none⟩

/-- C9: when open fails on a non-null output block — the flags do not decode,
or the provider open returns an error — the cant-open status is returned and
the block is returned exactly as it was: no dispatch table, path, File
instance or channel reference is installed. -/
theorem vfsOpen_failure_atomic {F : Type} (chan : Option IOError)
    (flags : Nat) (path : List Nat) (block : FileState F) :
    (∀ openRes : Except IOError F, OpenOptions.from_flags flags = none →
      vfsOpen true chan flags path openRes (some block) =
        (SQLITE_CANTOPEN, some invalid_open_flags_error, some block)) ∧
    (∀ (opts : OpenOptions) (err : IOError),
      OpenOptions.from_flags flags = some opts →
      vfsOpen true chan flags path (Except.error err) (some block) =
        (SQLITE_CANTOPEN, some err, some block)) := by
  constructor
  · intro openRes h
    simp [vfsOpen, h]
  · intro opts err h
    simp [vfsOpen, h]

/-- Witness for C9: flags 0 do not decode, so a concrete open fails
cant-open and leaves the block as it was; with decodable flags 258 a
concrete provider error likewise leaves the block untouched. -/
theorem vfsOpen_failure_atomic_witness :
    vfsOpen (F := Unit) true none 0 [65] (Except.ok ())
        (some ⟨false, none, none, false⟩) =
      (SQLITE_CANTOPEN, some invalid_open_flags_error,
        some ⟨false, none, none, false⟩) ∧
    vfsOpen (F := Unit) true none 258 [65]
        (Except.error ⟨ErrorKind.other, [66]⟩)
        (some ⟨false, none, none, false⟩) =
      (SQLITE_CANTOPEN, some ⟨ErrorKind.other, [66]⟩,
        some ⟨false, none, none, false⟩) :=
  ⟨(vfsOpen_failure_atomic none 0 [65] ⟨false, none, none, false⟩).1
    (Except.ok ()) (by decide),
   (vfsOpen_failure_atomic none 258 [65] ⟨false, none, none, false⟩).2
    ⟨OpenKind.MainDb, OpenAccess.Write, false⟩ ⟨ErrorKind.other, [66]⟩
    (by decide)⟩

/-- C10: get_last_error with an empty Error Channel returns success and
leaves the caller's buffer entirely unchanged (no empty-string terminator is
written), and the channel stays empty. -/
theorem vfsGetLastError_empty_frame (nByte : Nat) (buf : List Nat) :
    vfsGetLastError true none nByte buf = (SQLITE_OK, none, buf) := rfl
